import Mathlib

/-!
Shallow embedding of the spot/booking/review route handlers of
`backend/routes/api/spots.js` (an Express + Sequelize REST backend for a
vacation-rental marketplace), together with theorems about the booking-conflict
and authorization logic of those handlers.

Modelling conventions:
* The persistence layer is a `Store` record of lists; `Spot.findByPk`,
  `Booking.findAll`, `Review.findOne` etc. become list lookups and filters.
* Dates are modelled as integers (the source compares SQL `DATE` values, whose
  order is total; `Op.between` is the inclusive `≤ … ≤` test).
* Each route handler becomes a pure function from a store and the request's
  validated inputs to a response value paired with the updated store.
* The booking-creation handler in the source calls `next(err)` without
  `return` in its missing-spot and owner-books-own-spot branches, so execution
  falls through; the model reproduces the observable effect of that
  fall-through (the first error sent wins the HTTP response, but later
  side effects such as `Booking.create` still happen).
-/

/-- Spot record, with the attribute list of the source's `Spot.findByPk`
projection (id, ownerId, address, city, state, country, lat, lng, name,
description, price). -/
structure Spot where
  id : Nat
  ownerId : Nat
  address : String
  city : String
  state : String
  country : String
  lat : Int
  lng : Int
  name : String
  description : String
  price : Int
  deriving Repr, DecidableEq

/-- Booking record: id, spotId, userId (the booker), startDate, endDate. -/
structure Booking where
  id : Nat
  spotId : Nat
  userId : Nat
  startDate : Int
  endDate : Int
  deriving Repr, DecidableEq

/-- Review record: id, spotId, userId, review text, stars. -/
structure Review where
  id : Nat
  spotId : Nat
  userId : Nat
  review : String
  stars : Nat
  deriving Repr, DecidableEq

/-- Spot image record: id, spotId, url, preview flag. -/
structure SpotImage where
  id : Nat
  spotId : Nat
  url : String
  preview : Bool
  deriving Repr, DecidableEq

/-- User record, with the attributes the routes project (id, firstName,
lastName). -/
structure User where
  id : Nat
  firstName : String
  lastName : String
  deriving Repr, DecidableEq

/-- The persistence store the handlers read and write, with counters supplying
the ids of freshly created rows. -/
structure Store where
  spots : List Spot
  bookings : List Booking
  reviews : List Review
  spotImages : List SpotImage
  users : List User
  nextBookingId : Nat
  nextReviewId : Nat
  nextImageId : Nat
  deriving Repr, DecidableEq

/-- `Spot.findByPk(spotId)`. -/
def findSpot (st : Store) (spotId : Nat) : Option Spot :=
  st.spots.find? (fun s => s.id == spotId)

/-- `User.findByPk(userId)` (the booking list's `include: User`). -/
def findUser (st : Store) (userId : Nat) : Option User :=
  st.users.find? (fun u => u.id == userId)

/-- The `where` clause of the source's booking-conflict query: an existing
booking conflicts when its `startDate` is `Op.between` the proposed
[startDate, endDate] or its `endDate` is `Op.between` the proposed
[startDate, endDate] (both bounds inclusive). -/
def bookingConflict (startDate endDate : Int) (b : Booking) : Bool :=
  decide (startDate ≤ b.startDate ∧ b.startDate ≤ endDate) ||
  decide (startDate ≤ b.endDate ∧ b.endDate ≤ endDate)

/-- Responses of `POST /api/spots/:spotId/bookings`. -/
inductive BookingResponse where
  | notFound
  | forbiddenOwner
  | datesBooked
  | created (b : Booking)
  deriving Repr, DecidableEq

/-- HTTP status the source attaches to each booking response. -/
def bookingStatus : BookingResponse → Nat
  | .notFound => 404
  | .forbiddenOwner => 403
  | .datesBooked => 403
  | .created _ => 201

/-- Handler of `POST /api/spots/:spotId/bookings` (spots.js lines 386-448).
The missing-spot branch calls `next(err)` without `return`, but the following
`spot.ownerId` dereference of the null spot throws, so the observable outcome
is the 404 with no write. The owner-check branch also lacks `return`: the 403
response is sent first and wins, yet execution falls through to the conflict
check and, when no conflict is found, `Booking.create` still runs. -/
def postSpotBookings (st : Store) (uid spotId : Nat) (startDate endDate : Int) :
    BookingResponse × Store :=
  match findSpot st spotId with
  | none => (.notFound, st)
  | some spot =>
    let ownerErr := spot.ownerId == uid
    let conflicts := st.bookings.filter
      (fun b => b.spotId == spotId && bookingConflict startDate endDate b)
    if conflicts.length > 0 then
      (if ownerErr then .forbiddenOwner else .datesBooked, st)
    else
      let b : Booking := ⟨st.nextBookingId, spotId, uid, startDate, endDate⟩
      (if ownerErr then .forbiddenOwner else .created b,
       { st with bookings := st.bookings ++ [b],
                 nextBookingId := st.nextBookingId + 1 })

/-- Inclusive overlap of the ranges [s1, e1] and [s2, e2]: they share at least
one point, endpoint-inclusive at both bounds. -/
def rangesOverlap (s1 e1 s2 e2 : Int) : Prop :=
  s1 ≤ e2 ∧ s2 ≤ e1

instance (s1 e1 s2 e2 : Int) : Decidable (rangesOverlap s1 e1 s2 e2) := by
  unfold rangesOverlap; infer_instance

/-- Conflict test as the spec's sentence words it (to compare with the
source's `bookingConflict`): the proposed startDate falls within
[existing.startDate, existing.endDate] or the proposed endDate falls within
[existing.startDate, existing.endDate], bounds inclusive. -/
def specConflict (startDate endDate : Int) (b : Booking) : Bool :=
  decide (b.startDate ≤ startDate ∧ startDate ≤ b.endDate) ||
  decide (b.startDate ≤ endDate ∧ endDate ≤ b.endDate)

/-- Responses of `POST /api/spots/:spotId/reviews`. -/
inductive ReviewResponse where
  | notFound
  | forbiddenOwner
  | alreadyReviewed
  | created (r : Review)
  deriving Repr, DecidableEq

/-- HTTP status the source attaches to each review response (the duplicate
review rejection uses 500 in the source). -/
def reviewStatus : ReviewResponse → Nat
  | .notFound => 404
  | .forbiddenOwner => 403
  | .alreadyReviewed => 500
  | .created _ => 201

/-- Handler of `POST /api/spots/:spotId/reviews` (spots.js lines 452-500):
404 when the spot is missing, 403 when the requester owns the spot, 500 when
`Review.findOne({spotId, userId})` finds a prior review, else
`Review.create`. Every rejecting branch here does `return`. -/
def postSpotReviews (st : Store) (uid spotId : Nat) (reviewText : String)
    (stars : Nat) : ReviewResponse × Store :=
  match findSpot st spotId with
  | none => (.notFound, st)
  | some spot =>
    if spot.ownerId == uid then
      (.forbiddenOwner, st)
    else
      match st.reviews.find? (fun r => r.spotId == spotId && r.userId == uid) with
      | some _ => (.alreadyReviewed, st)
      | none =>
        let r : Review := ⟨st.nextReviewId, spotId, uid, reviewText, stars⟩
        (.created r,
         { st with reviews := st.reviews ++ [r],
                   nextReviewId := st.nextReviewId + 1 })

/-- Star values of all reviews of a spot (the source's
`Review.findAll({where: {spotId}, attributes: ["stars"]})`). -/
def spotStars (st : Store) (spotId : Nat) : List Nat :=
  (st.reviews.filter (fun r => r.spotId == spotId)).map (fun r => r.stars)

/-- JavaScript `x || null` on a number: 0 (and only 0, for the values that
arise here) is falsy and becomes null. -/
def jsOrNull (x : ℚ) : Option ℚ :=
  if x = 0 then none else some x

/-- Per-spot `avgRating` of the list endpoint `GET /api/spots` (lines
132-155): the SQL `AVG(stars)` group-by map contains only spots having at
least one review, and the handler reads `avgRatingsMap[spot.id] || null`. -/
def avgRatingList (st : Store) (spotId : Nat) : Option ℚ :=
  let stars := spotStars st spotId
  if stars.isEmpty then none
  else jsOrNull ((stars.map (fun s : Nat => (s : ℚ))).sum / stars.length)

/-- `avgStarRating` of the detail endpoint `GET /api/spots/:spotId` (lines
190-206): sum of stars divided by the review count when reviews exist,
otherwise 0. -/
def avgStarRatingDetail (st : Store) (spotId : Nat) : ℚ :=
  let stars := spotStars st spotId
  if stars.length > 0 then (stars.map (fun s : Nat => (s : ℚ))).sum / stars.length
  else 0

/-- Booking view returned to the spot's owner by
`GET /api/spots/:spotId/bookings`: the full booking record plus the included
`User` (id, firstName, lastName). -/
structure OwnerBookingView where
  id : Nat
  spotId : Nat
  userId : Nat
  startDate : Int
  endDate : Int
  user : Option User
  deriving Repr, DecidableEq

/-- Booking view returned to a non-owner: only spotId, startDate, endDate. -/
structure PublicBookingView where
  spotId : Nat
  startDate : Int
  endDate : Int
  deriving Repr, DecidableEq

/-- Responses of `GET /api/spots/:spotId/bookings`. -/
inductive BookingsListResponse where
  | notFound
  | ownerView (l : List OwnerBookingView)
  | publicView (l : List PublicBookingView)
  deriving Repr, DecidableEq

/-- Handler of `GET /api/spots/:spotId/bookings` (spots.js lines 587-628):
404 when the spot is missing; when `spot.ownerId === uid` the bookings come
with the included `User` model, otherwise only the attributes
["spotId", "startDate", "endDate"] are selected. -/
def getSpotBookings (st : Store) (uid spotId : Nat) : BookingsListResponse :=
  match findSpot st spotId with
  | none => .notFound
  | some spot =>
    let bs := st.bookings.filter (fun b => b.spotId == spotId)
    if spot.ownerId == uid then
      .ownerView (bs.map (fun b =>
        ⟨b.id, b.spotId, b.userId, b.startDate, b.endDate, findUser st b.userId⟩))
    else
      .publicView (bs.map (fun b => ⟨b.spotId, b.startDate, b.endDate⟩))

/-- The nine request-body fields of spot creation and spot edit. -/
structure SpotBody where
  address : String
  city : String
  state : String
  country : String
  lat : Int
  lng : Int
  name : String
  description : String
  price : Int
  deriving Repr, DecidableEq

/-- The source's `spot.update({address, …, price})`: the nine body fields are
written, every other column (id, ownerId) keeps its value. -/
def applySpotBody (spot : Spot) (body : SpotBody) : Spot :=
  { spot with
    address := body.address
    city := body.city
    state := body.state
    country := body.country
    lat := body.lat
    lng := body.lng
    name := body.name
    description := body.description
    price := body.price }

/-- Responses of `PUT /api/spots/:spotId`. -/
inductive EditResponse where
  | notFound
  | forbidden
  | ok (s : Spot)
  deriving Repr, DecidableEq

/-- HTTP status of each spot-edit response. -/
def editStatus : EditResponse → Nat
  | .notFound => 404
  | .forbidden => 403
  | .ok _ => 200

/-- Handler of `PUT /api/spots/:spotId` (spots.js lines 505-555): 404 when
the spot is missing, 403 when `spot.ownerId !== ownerId`, else update the
nine body fields in place. -/
def putSpot (st : Store) (uid spotId : Nat) (body : SpotBody) :
    EditResponse × Store :=
  match findSpot st spotId with
  | none => (.notFound, st)
  | some spot =>
    if spot.ownerId != uid then
      (.forbidden, st)
    else
      let updated := applySpotBody spot body
      (.ok updated,
       { st with spots := st.spots.map (fun s => if s.id == spot.id then updated else s) })

/-- Responses of `DELETE /api/spots/:spotId`. -/
inductive DeleteResponse where
  | notFound
  | forbidden
  | ok
  deriving Repr, DecidableEq

/-- HTTP status of each spot-delete response. -/
def deleteStatus : DeleteResponse → Nat
  | .notFound => 404
  | .forbidden => 403
  | .ok => 200

/-- Handler of `DELETE /api/spots/:spotId` (spots.js lines 560-584): 404 when
the spot is missing, 403 when `spot.ownerId !== ownerId`, else
`spot.destroy()`. -/
def deleteSpot (st : Store) (uid spotId : Nat) : DeleteResponse × Store :=
  match findSpot st spotId with
  | none => (.notFound, st)
  | some spot =>
    if spot.ownerId != uid then
      (.forbidden, st)
    else
      (.ok, { st with spots := st.spots.filter (fun s => !(s.id == spot.id)) })

/-- Responses of `POST /api/spots/:spotId/images`. -/
inductive ImageResponse where
  | badRequest
  | notFound
  | forbidden
  | created (i : SpotImage)
  deriving Repr, DecidableEq

/-- HTTP status of each image-attach response. -/
def imageStatus : ImageResponse → Nat
  | .badRequest => 400
  | .notFound => 404
  | .forbidden => 403
  | .created _ => 201

/-- Handler of `POST /api/spots/:spotId/images` (spots.js lines 345-383):
400 when `url` is falsy, 404 when the spot is missing, 403 when
`spot.ownerId !== ownerId`, else `SpotImages.create`. -/
def postSpotImages (st : Store) (uid spotId : Nat) (url : String)
    (preview : Bool) : ImageResponse × Store :=
  if url = "" then (.badRequest, st)
  else
    match findSpot st spotId with
    | none => (.notFound, st)
    | some spot =>
      if spot.ownerId != uid then
        (.forbidden, st)
      else
        let img : SpotImage := ⟨st.nextImageId, spotId, url, preview⟩
        (.created img,
         { st with spotImages := st.spotImages ++ [img],
                   nextImageId := st.nextImageId + 1 })

/-- Demo spot: id 1, owned by user 1. -/
def demoSpot : Spot := ⟨1, 1, "", "", "", "", 0, 0, "", "", 0⟩

/-- Demo store: one spot, no bookings, no reviews. -/
def demoStore : Store := ⟨[demoSpot], [], [], [], [], 1, 1, 1⟩

/-- Demo store holding one booking [1, 10] on spot 1 by user 2. -/
def bookedStore : Store :=
  { demoStore with bookings := [⟨1, 1, 2, 1, 10⟩], nextBookingId := 2 }

/-- Unfolding of `postSpotBookings` once the spot lookup is known. -/
theorem postSpotBookings_some (st : Store) (uid spotId : Nat) (s e : Int)
    (spot : Spot) (hspot : findSpot st spotId = some spot) :
    postSpotBookings st uid spotId s e =
      (if (st.bookings.filter
            (fun b => b.spotId == spotId && bookingConflict s e b)).length > 0 then
        (if spot.ownerId == uid then .forbiddenOwner else .datesBooked, st)
      else
        (if spot.ownerId == uid then .forbiddenOwner
         else .created ⟨st.nextBookingId, spotId, uid, s, e⟩,
         { st with
             bookings := st.bookings ++ [⟨st.nextBookingId, spotId, uid, s, e⟩],
             nextBookingId := st.nextBookingId + 1 })) := by
  unfold postSpotBookings
  rw [hspot]

/-- A nonempty filtered list characterizes a conflicting existing booking. -/
theorem booking_filter_pos_iff (st : Store) (spotId : Nat) (s e : Int) :
    (st.bookings.filter
      (fun b => b.spotId == spotId && bookingConflict s e b)).length > 0 ↔
    ∃ b ∈ st.bookings, b.spotId = spotId ∧ bookingConflict s e b = true := by
  rw [gt_iff_lt, List.length_pos_iff_exists_mem]
  simp only [List.mem_filter, Bool.and_eq_true, beq_iff_eq]

/-- C1: the claimed invariant — no two bookings of one spot with overlapping
inclusive ranges in any store reachable by booking creation — fails on the
code. From a store with one spot and no bookings, two successful
booking-creation calls leave two bookings on spot 1 whose ranges [1, 10] and
[3, 5] overlap: the source's conflict query never detects a proposed range
strictly inside an existing one. -/
theorem postSpotBookings_overlap_reachable :
    (postSpotBookings demoStore 2 1 1 10).1 = .created ⟨1, 1, 2, 1, 10⟩ ∧
    postSpotBookings (postSpotBookings demoStore 2 1 1 10).2 3 1 3 5 =
      (.created ⟨2, 1, 3, 3, 5⟩,
       { demoStore with
           bookings := [⟨1, 1, 2, 1, 10⟩, ⟨2, 1, 3, 3, 5⟩],
           nextBookingId := 3 }) ∧
    rangesOverlap 1 10 3 5 := by
  decide

/-- C2 counterexample: the spec's conflict predicate (proposed endpoints
within the existing range) holds for the existing booking [1, 10] of
`bookedStore` against the proposed range [3, 5], yet the handler declares no
conflict and creates the booking, so the claimed "if and only if" is false. -/
theorem postSpotBookings_conflict_spec_mismatch :
    specConflict 3 5 ⟨1, 1, 2, 1, 10⟩ = true ∧
    (⟨1, 1, 2, 1, 10⟩ : Booking) ∈ bookedStore.bookings ∧
    postSpotBookings bookedStore 3 1 3 5 =
      (.created ⟨2, 1, 3, 3, 5⟩,
       { bookedStore with
           bookings := [⟨1, 1, 2, 1, 10⟩, ⟨2, 1, 3, 3, 5⟩],
           nextBookingId := 3 }) := by
  decide

/-- C2 (amended): for an existing spot not owned by the requester, the
handler declares a conflict iff some existing booking of the spot has its own
startDate or endDate within the proposed [startDate, endDate], bounds
inclusive; on conflict it rejects with status 403 and the store is
unchanged. -/
theorem postSpotBookings_conflict_iff (st : Store) (uid spotId : Nat)
    (s e : Int) (spot : Spot) (hspot : findSpot st spotId = some spot)
    (howner : spot.ownerId ≠ uid) :
    ((postSpotBookings st uid spotId s e).1 = .datesBooked ↔
      ∃ b ∈ st.bookings, b.spotId = spotId ∧ bookingConflict s e b = true) ∧
    ((postSpotBookings st uid spotId s e).1 = .datesBooked →
      bookingStatus (postSpotBookings st uid spotId s e).1 = 403 ∧
      (postSpotBookings st uid spotId s e).2 = st) := by
  have hbeq : (spot.ownerId == uid) = false := beq_eq_false_iff_ne.mpr howner
  rw [postSpotBookings_some st uid spotId s e spot hspot, ← booking_filter_pos_iff]
  by_cases hc :
      (st.bookings.filter
        (fun b => b.spotId == spotId && bookingConflict s e b)).length > 0
  · simp [hc, hbeq, bookingStatus]
  · simp [hc, hbeq]

/-- C3: the claim (owner's booking request rejected with 403 and nothing
created) fails on the code: when user 1 requests a booking on their own spot
with no conflicting dates, the response is the 403 Forbidden error, yet the
fall-through after the unreturned `next(err)` still runs `Booking.create` and
persists the booking. -/
theorem postSpotBookings_owner_creates_anyway :
    (postSpotBookings demoStore 1 1 5 8).1 = .forbiddenOwner ∧
    bookingStatus (postSpotBookings demoStore 1 1 5 8).1 = 403 ∧
    (postSpotBookings demoStore 1 1 5 8).2.bookings = [⟨1, 1, 1, 5, 8⟩] := by
  decide

/-- C4: a booking request for a spot id absent from the store answers 404 and
leaves the store unchanged (the unreturned `next(err)` is followed by a null
dereference that throws before any write). -/
theorem postSpotBookings_missing_spot (st : Store) (uid spotId : Nat)
    (s e : Int) (hspot : findSpot st spotId = none) :
    postSpotBookings st uid spotId s e = (.notFound, st) ∧
    bookingStatus (postSpotBookings st uid spotId s e).1 = 404 := by
  unfold postSpotBookings
  rw [hspot]
  exact ⟨rfl, rfl⟩

/-- Witness for C4 at spot id 99, absent from the demo store. -/
theorem postSpotBookings_missing_spot_witness :
    findSpot demoStore 99 = none ∧
    (postSpotBookings demoStore 2 99 0 1 = (.notFound, demoStore) ∧
     bookingStatus (postSpotBookings demoStore 2 99 0 1).1 = 404) :=
  ⟨by decide, postSpotBookings_missing_spot demoStore 2 99 0 1 (by decide)⟩

/-- C5: for an existing spot not owned by the requester, dates d1 < d2, and
no existing booking of the spot overlapping [d1, d2] (all existing bookings
of the spot well-formed), the request succeeds with 201 and appends exactly
one booking carrying the spot id, the requester and the given dates. -/
theorem postSpotBookings_success (st : Store) (uid spotId : Nat) (s e : Int)
    (spot : Spot) (hspot : findSpot st spotId = some spot)
    (howner : spot.ownerId ≠ uid) (_hdates : s < e)
    (hfree : ∀ b ∈ st.bookings, b.spotId = spotId →
      b.startDate ≤ b.endDate ∧ ¬rangesOverlap b.startDate b.endDate s e) :
    spot.id = spotId ∧
    postSpotBookings st uid spotId s e =
      (.created ⟨st.nextBookingId, spotId, uid, s, e⟩,
       { st with
           bookings := st.bookings ++ [⟨st.nextBookingId, spotId, uid, s, e⟩],
           nextBookingId := st.nextBookingId + 1 }) ∧
    bookingStatus (postSpotBookings st uid spotId s e).1 = 201 := by
  have hid : spot.id = spotId := by
    have := List.find?_some hspot
    simpa using this
  have hbeq : (spot.ownerId == uid) = false := beq_eq_false_iff_ne.mpr howner
  have hfilter : st.bookings.filter
      (fun b => b.spotId == spotId && bookingConflict s e b) = [] := by
    rw [List.filter_eq_nil_iff]
    intro b hb
    simp only [Bool.and_eq_true, beq_iff_eq, bookingConflict, Bool.or_eq_true,
      decide_eq_true_eq, not_and, not_or]
    intro hbspot
    obtain ⟨hwf, hnov⟩ := hfree b hb hbspot
    unfold rangesOverlap at hnov
    omega
  rw [postSpotBookings_some st uid spotId s e spot hspot]
  refine ⟨hid, ?_, ?_⟩ <;> simp [hfilter, hbeq, bookingStatus]

/-- Witness for C5: user 2 books [1, 10] on spot 1 of the empty demo store. -/
theorem postSpotBookings_success_witness :
    findSpot demoStore 1 = some demoSpot ∧ demoSpot.ownerId ≠ 2 ∧
    (1 : Int) < 10 ∧
    (demoSpot.id = 1 ∧
     postSpotBookings demoStore 2 1 1 10 =
       (.created ⟨1, 1, 2, 1, 10⟩,
        { demoStore with bookings := [⟨1, 1, 2, 1, 10⟩], nextBookingId := 2 }) ∧
     bookingStatus (postSpotBookings demoStore 2 1 1 10).1 = 201) :=
  ⟨by decide, by decide, by decide,
   by
    have h := postSpotBookings_success demoStore 2 1 1 10 demoSpot (by decide)
      (by decide) (by decide) (by intro b hb; simp [demoStore] at hb)
    simpa using h⟩

/-- The two review invariants of the spec's data model: at most one review
per (spotId, userId) pair, and the owner of a spot has no review of it. -/
def ReviewInvariant (st : Store) : Prop :=
  (∀ r1 ∈ st.reviews, ∀ r2 ∈ st.reviews,
     r1.spotId = r2.spotId → r1.userId = r2.userId → r1 = r2) ∧
  (∀ r ∈ st.reviews, ∀ spot, findSpot st r.spotId = some spot →
     spot.ownerId ≠ r.userId)

/-- Behaviour of one review-creation call, as claim C6 describes it:
invariants preserved, duplicate attempts rejected with nothing created, the
owner rejected with 403, and creation happening exactly when the spot exists,
the requester is not the owner and no prior review by the requester exists. -/
def ReviewPostSpec (st : Store) (uid spotId : Nat) (text : String)
    (stars : Nat) : Prop :=
  ReviewInvariant (postSpotReviews st uid spotId text stars).2 ∧
  ((∃ r ∈ st.reviews, r.spotId = spotId ∧ r.userId = uid) →
     (postSpotReviews st uid spotId text stars).2 = st ∧
     ∀ r, (postSpotReviews st uid spotId text stars).1 ≠ .created r) ∧
  (∀ spot, findSpot st spotId = some spot → spot.ownerId = uid →
     postSpotReviews st uid spotId text stars = (.forbiddenOwner, st) ∧
     reviewStatus (postSpotReviews st uid spotId text stars).1 = 403) ∧
  ((∃ r, (postSpotReviews st uid spotId text stars).1 = .created r) ↔
     (∃ spot, findSpot st spotId = some spot ∧ spot.ownerId ≠ uid) ∧
     ∀ r ∈ st.reviews, ¬(r.spotId = spotId ∧ r.userId = uid))

/-- Unfolding of `postSpotReviews` when the spot lookup fails. -/
theorem postSpotReviews_none (st : Store) (uid spotId : Nat) (text : String)
    (stars : Nat) (hspot : findSpot st spotId = none) :
    postSpotReviews st uid spotId text stars = (.notFound, st) := by
  unfold postSpotReviews
  rw [hspot]

/-- Unfolding of `postSpotReviews` once the spot lookup is known. -/
theorem postSpotReviews_some (st : Store) (uid spotId : Nat) (text : String)
    (stars : Nat) (spot : Spot) (hspot : findSpot st spotId = some spot) :
    postSpotReviews st uid spotId text stars =
      (if spot.ownerId == uid then (.forbiddenOwner, st)
       else
        match st.reviews.find? (fun r => r.spotId == spotId && r.userId == uid) with
        | some _ => (.alreadyReviewed, st)
        | none =>
          (.created ⟨st.nextReviewId, spotId, uid, text, stars⟩,
           { st with
               reviews := st.reviews ++ [⟨st.nextReviewId, spotId, uid, text, stars⟩],
               nextReviewId := st.nextReviewId + 1 })) := by
  unfold postSpotReviews
  rw [hspot]

/-- C6: review creation preserves both review invariants and creates a review
exactly when the spot exists, the requester is not its owner, and the
requester has no prior review of the spot. -/
theorem postSpotReviews_invariants (st : Store) (uid spotId : Nat)
    (text : String) (stars : Nat) (hinv : ReviewInvariant st) :
    ReviewPostSpec st uid spotId text stars := by
  unfold ReviewPostSpec
  cases hsp : findSpot st spotId with
  | none =>
    have hrw := postSpotReviews_none st uid spotId text stars hsp
    refine ⟨?_, ?_, ?_, ?_⟩
    · rw [hrw]; exact hinv
    · intro _; rw [hrw]; exact ⟨rfl, fun r h => ReviewResponse.noConfusion h⟩
    · intro spot hspot
      exact Option.noConfusion hspot
    · rw [hrw]
      constructor
      · rintro ⟨r, hr⟩; exact ReviewResponse.noConfusion hr
      · rintro ⟨⟨spot, hspot, -⟩, -⟩
        exact Option.noConfusion hspot
  | some spot =>
    have hrw := postSpotReviews_some st uid spotId text stars spot hsp
    by_cases how : spot.ownerId = uid
    · have hbeq : (spot.ownerId == uid) = true := beq_iff_eq.mpr how
      rw [hbeq, if_pos rfl] at hrw
      refine ⟨?_, ?_, ?_, ?_⟩
      · rw [hrw]; exact hinv
      · intro _; rw [hrw]; exact ⟨rfl, fun r h => ReviewResponse.noConfusion h⟩
      · intro spot' hspot' _
        exact ⟨hrw, by rw [hrw]; rfl⟩
      · rw [hrw]
        constructor
        · rintro ⟨r, hr⟩; exact ReviewResponse.noConfusion hr
        · rintro ⟨⟨spot', hspot', hne⟩, -⟩
          have heq : spot = spot' := Option.some.inj hspot'
          rw [← heq] at hne
          exact absurd how hne
    · have hbeq : (spot.ownerId == uid) = false := beq_eq_false_iff_ne.mpr how
      rw [hbeq] at hrw
      simp only [Bool.false_eq_true, if_false] at hrw
      cases hf : st.reviews.find? (fun r => r.spotId == spotId && r.userId == uid) with
      | some r0 =>
        rw [hf] at hrw
        have hmem := List.mem_of_find?_eq_some hf
        have hprop := List.find?_some hf
        simp only [Bool.and_eq_true, beq_iff_eq] at hprop
        refine ⟨?_, ?_, ?_, ?_⟩
        · rw [hrw]; exact hinv
        · intro _; rw [hrw]; exact ⟨rfl, fun r h => ReviewResponse.noConfusion h⟩
        · intro spot' hspot' how'
          have heq : spot = spot' := Option.some.inj hspot'
          rw [← heq] at how'
          exact absurd how' how
        · rw [hrw]
          constructor
          · rintro ⟨r, hr⟩; exact ReviewResponse.noConfusion hr
          · rintro ⟨-, hnone⟩
            exact absurd ⟨hprop.1, hprop.2⟩ (hnone r0 hmem)
      | none =>
        rw [hf] at hrw
        have hnodup : ∀ r ∈ st.reviews, ¬(r.spotId = spotId ∧ r.userId = uid) := by
          intro r hr
          have := List.find?_eq_none.mp hf r hr
          simpa [Bool.and_eq_true, beq_iff_eq] using this
        refine ⟨?_, ?_, ?_, ?_⟩
        · rw [hrw]
          constructor
          · intro r1 h1 r2 h2 hsps husr
            simp only [List.mem_append, List.mem_singleton] at h1 h2
            rcases h1 with h1 | h1 <;> rcases h2 with h2 | h2
            · exact hinv.1 r1 h1 r2 h2 hsps husr
            · subst h2
              exact absurd ⟨hsps, husr⟩ (hnodup r1 h1)
            · subst h1
              exact absurd ⟨hsps.symm, husr.symm⟩ (hnodup r2 h2)
            · rw [h1, h2]
          · intro r hr spot' hspot'
            simp only [List.mem_append, List.mem_singleton] at hr
            have hfind : findSpot st r.spotId = some spot' := hspot'
            rcases hr with hr | hr
            · exact hinv.2 r hr spot' hfind
            · subst hr
              have heq : spot' = spot := Option.some.inj (hfind.symm.trans hsp)
              simpa [heq] using how
        · rintro ⟨r, hr, hrs, hru⟩
          exact absurd ⟨hrs, hru⟩ (hnodup r hr)
        · intro spot' hspot' how'
          have heq : spot = spot' := Option.some.inj hspot'
          rw [← heq] at how'
          exact absurd how' how
        · rw [hrw]
          constructor
          · intro _
            exact ⟨⟨spot, rfl, how⟩, hnodup⟩
          · intro _
            exact ⟨⟨st.nextReviewId, spotId, uid, text, stars⟩, rfl⟩

/-- Witness for C6: user 2 reviews spot 1 of the demo store (empty review
table), satisfying the invariants before and after. -/
theorem postSpotReviews_invariants_witness :
    ReviewInvariant demoStore ∧ ReviewPostSpec demoStore 2 1 "great stay" 5 :=
  have hinv : ReviewInvariant demoStore := by
    constructor <;> simp [demoStore]
  ⟨hinv, postSpotReviews_invariants demoStore 2 1 "great stay" 5 hinv⟩

/-- Witness for C2 (amended): user 3 proposes [4, 12] against the existing
booking [1, 10] of `bookedStore`; the existing endDate 10 lies inside the
proposed range, so the request is rejected. -/
theorem postSpotBookings_conflict_iff_witness :
    findSpot bookedStore 1 = some demoSpot ∧ demoSpot.ownerId ≠ 3 ∧
    (((postSpotBookings bookedStore 3 1 4 12).1 = .datesBooked ↔
       ∃ b ∈ bookedStore.bookings, b.spotId = 1 ∧ bookingConflict 4 12 b = true) ∧
     ((postSpotBookings bookedStore 3 1 4 12).1 = .datesBooked →
       bookingStatus (postSpotBookings bookedStore 3 1 4 12).1 = 403 ∧
       (postSpotBookings bookedStore 3 1 4 12).2 = bookedStore)) :=
  ⟨by decide, by decide,
   postSpotBookings_conflict_iff bookedStore 3 1 4 12 demoSpot (by decide) (by decide)⟩

/-- Average-rating behaviour of the two endpoints, as claim C7 describes it:
with zero reviews the list view reports null and the detail view 0; with
reviews present both report the arithmetic mean of the star values. -/
def AvgRatingSpec (st : Store) (spotId : Nat) : Prop :=
  (spotStars st spotId = [] →
     avgRatingList st spotId = none ∧ avgStarRatingDetail st spotId = 0) ∧
  (spotStars st spotId ≠ [] →
     avgRatingList st spotId =
       some (((spotStars st spotId).map (fun s : Nat => (s : ℚ))).sum /
         (spotStars st spotId).length) ∧
     avgStarRatingDetail st spotId =
       ((spotStars st spotId).map (fun s : Nat => (s : ℚ))).sum /
         (spotStars st spotId).length)

/-- C7: the average rating is the arithmetic mean of the spot's review stars;
with zero reviews the list endpoint reports null and the detail endpoint 0,
two distinct sentinels (assuming the stars are validated to be at least 1,
so a nonempty mean is never the falsy 0). -/
theorem avgRating_mean (st : Store) (spotId : Nat)
    (hvalid : ∀ s ∈ spotStars st spotId, 1 ≤ s) :
    AvgRatingSpec st spotId := by
  unfold AvgRatingSpec
  constructor
  · intro h
    unfold avgRatingList avgStarRatingDetail
    simp [h]
  · intro h
    have hlen : 0 < (spotStars st spotId).length := List.length_pos.mpr h
    have hsum : 0 < ((spotStars st spotId).map (fun s : Nat => (s : ℚ))).sum := by
      apply List.sum_pos
      · intro x hx
        simp only [List.mem_map] at hx
        obtain ⟨s, hs, rfl⟩ := hx
        have h1 : (1 : ℚ) ≤ (s : ℚ) := by exact_mod_cast hvalid s hs
        linarith
      · exact fun hmap => h (List.map_eq_nil_iff.mp hmap)
    have hne : ((spotStars st spotId).map (fun s : Nat => (s : ℚ))).sum /
        ((spotStars st spotId).length : ℚ) ≠ 0 := by
      apply div_ne_zero (ne_of_gt hsum)
      exact_mod_cast Nat.pos_iff_ne_zero.mp hlen
    constructor
    · unfold avgRatingList jsOrNull
      simp only [List.isEmpty_iff, h, if_false]
      rw [if_neg hne]
    · unfold avgStarRatingDetail
      simp [hlen]

/-- Store with two reviews of spot 1, stars 3 and 5 (mean 4). -/
def reviewedStore : Store :=
  { demoStore with
      reviews := [⟨1, 1, 2, "good", 3⟩, ⟨2, 1, 3, "great", 5⟩],
      nextReviewId := 3 }

/-- Witness for C7 on the store with stars [3, 5]. -/
theorem avgRating_mean_witness :
    (∀ s ∈ spotStars reviewedStore 1, 1 ≤ s) ∧ AvgRatingSpec reviewedStore 1 :=
  ⟨by decide, avgRating_mean reviewedStore 1 (by decide)⟩

/-- Booking-listing views of `GET /api/spots/:spotId/bookings`, as claim C8
describes them: the owner sees full records with the booker's identity, a
non-owner sees only spotId, startDate and endDate per booking. -/
def BookingsViewSpec (st : Store) (uid spotId : Nat) (spot : Spot) : Prop :=
  (spot.ownerId = uid →
     getSpotBookings st uid spotId = .ownerView
       ((st.bookings.filter (fun b => b.spotId == spotId)).map (fun b =>
         ⟨b.id, b.spotId, b.userId, b.startDate, b.endDate, findUser st b.userId⟩))) ∧
  (spot.ownerId ≠ uid →
     getSpotBookings st uid spotId = .publicView
       ((st.bookings.filter (fun b => b.spotId == spotId)).map (fun b =>
         ⟨b.spotId, b.startDate, b.endDate⟩)))

/-- Unfolding of `getSpotBookings` once the spot lookup is known. -/
theorem getSpotBookings_some (st : Store) (uid spotId : Nat) (spot : Spot)
    (hspot : findSpot st spotId = some spot) :
    getSpotBookings st uid spotId =
      (if spot.ownerId == uid then
        .ownerView
          ((st.bookings.filter (fun b => b.spotId == spotId)).map (fun b =>
            ⟨b.id, b.spotId, b.userId, b.startDate, b.endDate, findUser st b.userId⟩))
      else
        .publicView
          ((st.bookings.filter (fun b => b.spotId == spotId)).map (fun b =>
            ⟨b.spotId, b.startDate, b.endDate⟩))) := by
  unfold getSpotBookings
  rw [hspot]

/-- C8: the owner of the spot receives every booking with the booker's
id/firstName/lastName attached; any other requester receives, per booking,
a record holding only spotId, startDate and endDate (the non-owner view's
record type has no name fields at all). -/
theorem getSpotBookings_privacy (st : Store) (uid spotId : Nat) (spot : Spot)
    (hspot : findSpot st spotId = some spot) :
    BookingsViewSpec st uid spotId spot := by
  unfold BookingsViewSpec
  rw [getSpotBookings_some st uid spotId spot hspot]
  constructor
  · intro h
    simp [beq_iff_eq.mpr h]
  · intro h
    simp [beq_eq_false_iff_ne.mpr h]

/-- Store with one booking on spot 1 and the two users involved. -/
def peopledStore : Store :=
  { bookedStore with users := [⟨1, "John", "Doe"⟩, ⟨2, "Jane", "Roe"⟩] }

/-- Witness for C8: owner user 1 and stranger user 3 list the bookings of
spot 1. -/
theorem getSpotBookings_privacy_witness :
    findSpot peopledStore 1 = some demoSpot ∧
    BookingsViewSpec peopledStore 1 1 demoSpot :=
  ⟨by decide, getSpotBookings_privacy peopledStore 1 1 demoSpot (by decide)⟩

/-- Ownership contract of the three spot mutations, as claim C9 describes it:
with the spot loaded (and, for image-attach, a non-empty url), each mutation
goes through exactly when the requester is the owner; a non-owner gets 403
from each and the store is left untouched. -/
def SpotMutationAuthSpec (st : Store) (uid spotId : Nat) (spot : Spot)
    (body : SpotBody) (url : String) (preview : Bool) : Prop :=
  (spot.ownerId = uid →
     putSpot st uid spotId body =
       (.ok (applySpotBody spot body),
        { st with spots := st.spots.map (fun s => if s.id == spot.id then applySpotBody spot body else s) }) ∧
     deleteSpot st uid spotId =
       (.ok, { st with spots := st.spots.filter (fun s => !(s.id == spot.id)) }) ∧
     postSpotImages st uid spotId url preview =
       (.created ⟨st.nextImageId, spotId, url, preview⟩,
        { st with
            spotImages := st.spotImages ++ [⟨st.nextImageId, spotId, url, preview⟩],
            nextImageId := st.nextImageId + 1 })) ∧
  (spot.ownerId ≠ uid →
     putSpot st uid spotId body = (.forbidden, st) ∧
     editStatus (putSpot st uid spotId body).1 = 403 ∧
     deleteSpot st uid spotId = (.forbidden, st) ∧
     deleteStatus (deleteSpot st uid spotId).1 = 403 ∧
     postSpotImages st uid spotId url preview = (.forbidden, st) ∧
     imageStatus (postSpotImages st uid spotId url preview).1 = 403)

/-- Unfolding of `putSpot` once the spot lookup is known. -/
theorem putSpot_some (st : Store) (uid spotId : Nat) (body : SpotBody)
    (spot : Spot) (hspot : findSpot st spotId = some spot) :
    putSpot st uid spotId body =
      (if spot.ownerId != uid then (.forbidden, st)
       else
        (.ok (applySpotBody spot body),
         { st with spots := st.spots.map (fun s => if s.id == spot.id then applySpotBody spot body else s) })) := by
  unfold putSpot
  rw [hspot]

/-- Unfolding of `deleteSpot` once the spot lookup is known. -/
theorem deleteSpot_some (st : Store) (uid spotId : Nat) (spot : Spot)
    (hspot : findSpot st spotId = some spot) :
    deleteSpot st uid spotId =
      (if spot.ownerId != uid then (.forbidden, st)
       else (.ok, { st with spots := st.spots.filter (fun s => !(s.id == spot.id)) })) := by
  unfold deleteSpot
  rw [hspot]

/-- Unfolding of `postSpotImages` for a non-empty url and known spot. -/
theorem postSpotImages_some (st : Store) (uid spotId : Nat) (url : String)
    (preview : Bool) (spot : Spot) (hurl : url ≠ "")
    (hspot : findSpot st spotId = some spot) :
    postSpotImages st uid spotId url preview =
      (if spot.ownerId != uid then (.forbidden, st)
       else
        (.created ⟨st.nextImageId, spotId, url, preview⟩,
         { st with
             spotImages := st.spotImages ++ [⟨st.nextImageId, spotId, url, preview⟩],
             nextImageId := st.nextImageId + 1 })) := by
  unfold postSpotImages
  rw [if_neg hurl, hspot]

/-- C9: for spot edit, spot delete and image-attach alike, the mutation on an
existing spot succeeds iff the requester is the spot's owner; otherwise each
handler answers 403 Forbidden and the store (spot and images included) is
unchanged. -/
theorem spotMutation_owner_only (st : Store) (uid spotId : Nat) (spot : Spot)
    (body : SpotBody) (url : String) (preview : Bool)
    (hspot : findSpot st spotId = some spot) (hurl : url ≠ "") :
    SpotMutationAuthSpec st uid spotId spot body url preview := by
  unfold SpotMutationAuthSpec
  rw [putSpot_some st uid spotId body spot hspot,
    deleteSpot_some st uid spotId spot hspot,
    postSpotImages_some st uid spotId url preview spot hurl hspot]
  constructor
  · intro h
    have hb : (spot.ownerId != uid) = false := by simp [h]
    simp [hb]
  · intro h
    have hb : (spot.ownerId != uid) = true := bne_iff_ne.mpr h
    simp [hb, editStatus, deleteStatus, imageStatus]

/-- Witness for C9: owner user 1 and stranger user 2 against spot 1 of the
demo store. -/
theorem spotMutation_owner_only_witness :
    findSpot demoStore 1 = some demoSpot ∧ "pic.png" ≠ "" ∧
    SpotMutationAuthSpec demoStore 1 1 demoSpot
      ⟨"a", "b", "c", "d", 1, 2, "e", "f", 3⟩ "pic.png" true :=
  ⟨by decide, by decide,
   spotMutation_owner_only demoStore 1 1 demoSpot
     ⟨"a", "b", "c", "d", 1, 2, "e", "f", 3⟩ "pic.png" true (by decide) (by decide)⟩

/-- C10: a successful spot edit answers with the spot whose nine body fields
are the submitted values and whose id and ownerId are those of the stored
spot; in the store only the spots table changes, and there only the row with
the spot's id, replaced by that updated spot. -/
theorem putSpot_frame (st : Store) (uid spotId : Nat) (spot : Spot)
    (body : SpotBody) (hspot : findSpot st spotId = some spot)
    (howner : spot.ownerId = uid) :
    (putSpot st uid spotId body).1 = .ok (applySpotBody spot body) ∧
    (applySpotBody spot body).id = spot.id ∧
    (applySpotBody spot body).ownerId = spot.ownerId ∧
    (applySpotBody spot body).address = body.address ∧
    (applySpotBody spot body).city = body.city ∧
    (applySpotBody spot body).state = body.state ∧
    (applySpotBody spot body).country = body.country ∧
    (applySpotBody spot body).lat = body.lat ∧
    (applySpotBody spot body).lng = body.lng ∧
    (applySpotBody spot body).name = body.name ∧
    (applySpotBody spot body).description = body.description ∧
    (applySpotBody spot body).price = body.price ∧
    (putSpot st uid spotId body).2.spots =
      st.spots.map (fun s => if s.id == spot.id then applySpotBody spot body else s) ∧
    (putSpot st uid spotId body).2.bookings = st.bookings ∧
    (putSpot st uid spotId body).2.reviews = st.reviews ∧
    (putSpot st uid spotId body).2.spotImages = st.spotImages ∧
    (putSpot st uid spotId body).2.users = st.users := by
  have hb : (spot.ownerId != uid) = false := by simp [howner]
  rw [putSpot_some st uid spotId body spot hspot]
  simp [hb, applySpotBody]

/-- Witness for C10: owner user 1 edits spot 1 of the demo store. -/
theorem putSpot_frame_witness :
    findSpot demoStore 1 = some demoSpot ∧ demoSpot.ownerId = 1 ∧
    ((putSpot demoStore 1 1 ⟨"a", "b", "c", "d", 1, 2, "e", "f", 3⟩).1 =
       .ok (applySpotBody demoSpot ⟨"a", "b", "c", "d", 1, 2, "e", "f", 3⟩) ∧
     (applySpotBody demoSpot ⟨"a", "b", "c", "d", 1, 2, "e", "f", 3⟩).id = demoSpot.id ∧
     (applySpotBody demoSpot ⟨"a", "b", "c", "d", 1, 2, "e", "f", 3⟩).ownerId = demoSpot.ownerId) := by
  have h := putSpot_frame demoStore 1 1 demoSpot
    ⟨"a", "b", "c", "d", 1, 2, "e", "f", 3⟩ (by decide) (by decide)
  exact ⟨by decide, by decide, h.1, h.2.1, h.2.2.1⟩
